import Mathlib

/-!
Shallow embedding of the `magic-rs` compiled-magic-database decoder
(src/loader.rs, src/magic.rs, src/value.rs, src/traits.rs, src/structs.rs).

Modelling conventions:
* A Rust byte buffer is a `List Nat`; universal theorems that depend on
  bytes being genuine `u8` values carry the hypothesis `∀ b ∈ bytes, b < 256`.
* Rust `String` results are modelled as their UTF-8 byte sequences
  (`List Nat`), so `bytes_to_string` returns the validated byte prefix.
* Fallible Rust functions returning `Result` are modelled with `Res ε α`,
  which has a third constructor `Res.panic` for `assert!` failures,
  `Vec::split_off` out-of-bounds panics, and (in release semantics) the
  effects of wrapped arithmetic that debug builds would turn into an
  overflow panic.  `u32` arithmetic is modelled with explicit `% 2 ^ 32`
  (release / wrapping semantics).
* `u32::from_be` is modelled for a little-endian host, where it is a
  byte swap, which is the behaviour the crate's own error messages and
  tests assume.
-/

deriving instance DecidableEq for Except

/-- Result of running a piece of fallible Rust code: `ok` for `Ok`,
`err` for `Err`, and `panic` for an `assert!`/indexing/overflow panic. -/
inductive Res (ε : Type) (α : Type) where
  | ok (a : α)
  | err (e : ε)
  | panic
deriving DecidableEq, Repr

namespace Res

def bind (x : Res ε α) (f : α → Res ε β) : Res ε β :=
  match x with
  | .ok a => f a
  | .err e => .err e
  | .panic => .panic

instance : Monad (Res ε) where
  pure := Res.ok
  bind := Res.bind

/-- Lift an `Except` (a Rust `Result` that cannot panic) into `Res`. -/
def ofExcept : Except ε α → Res ε α
  | .ok a => .ok a
  | .error e => .err e

/-- Model of the `?` operator through a `#[from]` error conversion. -/
def mapErr (f : ε → η) : Res ε α → Res η α
  | .ok a => .ok a
  | .err e => .err (f e)
  | .panic => .panic

end Res

/-! ## src/traits.rs — little-endian reads

`ReadLittleEndian::read_le` asserts the slice is long enough; every call
site in the repository reads at an in-bounds offset of a buffer whose
length was already validated, so the model uses `getD _ 0` and the
assertion is not modelled. -/

def u16_read_le (bytes : List Nat) : Nat :=
  bytes.getD 0 0 + 2 ^ 8 * bytes.getD 1 0

def u32_read_le (bytes : List Nat) : Nat :=
  bytes.getD 0 0 + 2 ^ 8 * bytes.getD 1 0 + 2 ^ 16 * bytes.getD 2 0 +
    2 ^ 24 * bytes.getD 3 0

def u64_read_le (bytes : List Nat) : Nat :=
  bytes.getD 0 0 + 2 ^ 8 * bytes.getD 1 0 + 2 ^ 16 * bytes.getD 2 0 +
    2 ^ 24 * bytes.getD 3 0 + 2 ^ 32 * bytes.getD 4 0 +
    2 ^ 40 * bytes.getD 5 0 + 2 ^ 48 * bytes.getD 6 0 + 2 ^ 56 * bytes.getD 7 0

/-- `i32::read_le`: the unsigned little-endian read, reinterpreted as a
signed two's-complement 32-bit integer. -/
def i32_read_le (bytes : List Nat) : Int :=
  let n := u32_read_le bytes
  if n < 2 ^ 31 then (n : Int) else (n : Int) - 2 ^ 32

/-- `u32::from_be` on a little-endian host: swap the four bytes. -/
def u32_from_be (n : Nat) : Nat :=
  (n % 2 ^ 8) * 2 ^ 24 + (n / 2 ^ 8 % 2 ^ 8) * 2 ^ 16 +
    (n / 2 ^ 16 % 2 ^ 8) * 2 ^ 8 + (n / 2 ^ 24 % 2 ^ 8)

/-! ## src/value.rs -/

/-- `ValueError` from src/value.rs. -/
inductive ValueError where
  | InvalidValueType (raw : Nat)
deriving DecidableEq, Repr

/-- The 60-variant `ValueType` enumeration from src/value.rs. -/
inductive ValueType where
  | Invalid | Byte | Short | Default | Long | String | Date | BeShort
  | BeLong | BeDate | LeShort | LeLong | LeDate | PString | LDate
  | BeLDate | LeLDate | Regex | BeString16 | LeString16 | Search
  | MeDate | MeLDate | MeLong | Quad | LeQuad | BeQuad | QDate
  | LeQDate | BeQDate | QLDate | LeQLDate | BeQLDate | Float | BeFloat
  | LeFloat | Double | BeDouble | LeDouble | BeId3 | LeId3 | Indirect
  | QwDate | LeQwDate | BeQwDate | Name | Use | Clear | Der | Guid
  | Offset | BeVarInt | LeVarInt | MSDosDate | LeMSDosDate | BeMsDosDate
  | MSDosTime | LeMSDOSTime | BeMSDOSTime | Octal
deriving DecidableEq, Repr

namespace ValueType

/-- The `#[repr(u8)]` discriminant of each variant (`vt as u8` in Rust). -/
def toNat : ValueType → Nat
  | Invalid => 0 | Byte => 1 | Short => 2 | Default => 3 | Long => 4
  | String => 5 | Date => 6 | BeShort => 7 | BeLong => 8 | BeDate => 9
  | LeShort => 10 | LeLong => 11 | LeDate => 12 | PString => 13
  | LDate => 14 | BeLDate => 15 | LeLDate => 16 | Regex => 17
  | BeString16 => 18 | LeString16 => 19 | Search => 20 | MeDate => 21
  | MeLDate => 22 | MeLong => 23 | Quad => 24 | LeQuad => 25
  | BeQuad => 26 | QDate => 27 | LeQDate => 28 | BeQDate => 29
  | QLDate => 30 | LeQLDate => 31 | BeQLDate => 32 | Float => 33
  | BeFloat => 34 | LeFloat => 35 | Double => 36 | BeDouble => 37
  | LeDouble => 38 | BeId3 => 39 | LeId3 => 40 | Indirect => 41
  | QwDate => 42 | LeQwDate => 43 | BeQwDate => 44 | Name => 45
  | Use => 46 | Clear => 47 | Der => 48 | Guid => 49 | Offset => 50
  | BeVarInt => 51 | LeVarInt => 52 | MSDosDate => 53 | LeMSDosDate => 54
  | BeMsDosDate => 55 | MSDosTime => 56 | LeMSDOSTime => 57
  | BeMSDOSTime => 58 | Octal => 59

/-- `impl TryFrom<u8> for ValueType` from src/value.rs. -/
def try_from (value : Nat) : Except ValueError ValueType :=
  match value with
  | 0 => .ok Invalid | 1 => .ok Byte | 2 => .ok Short | 3 => .ok Default
  | 4 => .ok Long | 5 => .ok String | 6 => .ok Date | 7 => .ok BeShort
  | 8 => .ok BeLong | 9 => .ok BeDate | 10 => .ok LeShort
  | 11 => .ok LeLong | 12 => .ok LeDate | 13 => .ok PString
  | 14 => .ok LDate | 15 => .ok BeLDate | 16 => .ok LeLDate
  | 17 => .ok Regex | 18 => .ok BeString16 | 19 => .ok LeString16
  | 20 => .ok Search | 21 => .ok MeDate | 22 => .ok MeLDate
  | 23 => .ok MeLong | 24 => .ok Quad | 25 => .ok LeQuad
  | 26 => .ok BeQuad | 27 => .ok QDate | 28 => .ok LeQDate
  | 29 => .ok BeQDate | 30 => .ok QLDate | 31 => .ok LeQLDate
  | 32 => .ok BeQLDate | 33 => .ok Float | 34 => .ok BeFloat
  | 35 => .ok LeFloat | 36 => .ok Double | 37 => .ok BeDouble
  | 38 => .ok LeDouble | 39 => .ok BeId3 | 40 => .ok LeId3
  | 41 => .ok Indirect | 42 => .ok QwDate | 43 => .ok LeQwDate
  | 44 => .ok BeQwDate | 45 => .ok Name | 46 => .ok Use
  | 47 => .ok Clear | 48 => .ok Der | 49 => .ok Guid | 50 => .ok Offset
  | 51 => .ok BeVarInt | 52 => .ok LeVarInt | 53 => .ok MSDosDate
  | 54 => .ok LeMSDosDate | 55 => .ok BeMsDosDate | 56 => .ok MSDosTime
  | 57 => .ok LeMSDOSTime | 58 => .ok BeMSDOSTime | 59 => .ok Octal
  | other => .error (.InvalidValueType other)

end ValueType

/-- The tagged value-options union from src/value.rs. -/
inductive ValueOption where
  | Numeric (mask : Nat)
  | String (count : Nat) (flags : Nat)
deriving DecidableEq, Repr

/-- `Value` from src/value.rs: a type-tagged byte payload. -/
structure Value where
  vtype : ValueType
  bytes : List Nat
deriving DecidableEq, Repr

/-- The trailing-zero trimming loop inside `Value::new`
(`while len > 1 { if bytes[len - 1] != 0 { break } len -= 1 }`),
as a function of the starting `len`. -/
def trimLoop (bytes : List Nat) : Nat → Nat
  | 0 => 0
  | 1 => 1
  | n + 2 => if bytes.getD (n + 1) 0 ≠ 0 then n + 2 else trimLoop bytes (n + 1)

/-- `Value::new` from src/value.rs.  The two `assert!`s are modelled as
`Res.panic`; the `Err` variant of the Rust signature is never produced. -/
def Value.new (vtype : ValueType) (len : Nat) (bytes : List Nat) :
    Res ValueError Value :=
  if len ≤ bytes.length then
    let len2 := if len ≠ 0 then len else trimLoop bytes (bytes.length - 1)
    if 0 < len2 then .ok ⟨vtype, bytes.take len2⟩ else .panic
  else .panic

/-! ## src/magic.rs -/

/-- `MagicError` from src/magic.rs.  `InvalidRelation` and
`InvalidFactorOperation` carry the offending byte (the Rust code carries
it upcast to `char`); `InvalidUtf8`'s underlying `Utf8Error` diagnostic
is not modelled. -/
inductive MagicError where
  | InvalidBufferLength (got : Nat) (expected : Nat)
  | InvalidConditionalType (raw : Nat)
  | InvalidFactorOperation (raw : Nat)
  | InvalidIndirectionOperationBitSet
  | InvalidRelation (raw : Nat)
  | InvalidUtf8
  | Value (e : ValueError)
deriving DecidableEq, Repr

/-- `MagicFlags` from src/magic.rs: one stored flag byte. -/
structure MagicFlags where
  flags : Nat
deriving DecidableEq, Repr

/-- `Relation` from src/magic.rs. -/
inductive Relation where
  | Equal | NotEqual | Lesser | Greater | BitXor | BitAnd | Anything
deriving DecidableEq, Repr

/-- `impl TryFrom<u8> for Relation`: byte values are the ASCII codes
`'='` 61, `'!'` 33, `'<'` 60, `'>'` 62, `'^'` 94, `'&'` 38, `'x'` 120. -/
def Relation.try_from (value : Nat) : Except MagicError Relation :=
  match value with
  | 61 => .ok .Equal
  | 33 => .ok .NotEqual
  | 60 => .ok .Lesser
  | 62 => .ok .Greater
  | 94 => .ok .BitXor
  | 38 => .ok .BitAnd
  | 120 => .ok .Anything
  | other => .error (.InvalidRelation other)

/-- `FactorOperation` from src/magic.rs.  The `Modulo` variant exists but
`try_from` maps no byte to it. -/
inductive FactorOperation where
  | None | Add | Subtract | Multiply | Divide | Modulo
deriving DecidableEq, Repr

/-- `impl TryFrom<u8> for FactorOperation`: `'\0'` 0, `'+'` 43, `'-'` 45,
`'*'` 42, `'/'` 47. -/
def FactorOperation.try_from (value : Nat) : Except MagicError FactorOperation :=
  match value with
  | 0 => .ok .None
  | 43 => .ok .Add
  | 45 => .ok .Subtract
  | 42 => .ok .Multiply
  | 47 => .ok .Divide
  | other => .error (.InvalidFactorOperation other)

/-- `IndirectionOperator` from src/magic.rs. -/
inductive IndirectionOperator where
  | And | Or | Xor | Add | Subtract | Multiply | Divide | Modulo
deriving DecidableEq, Repr

/-- `IndirectionFlags` from src/magic.rs. -/
structure IndirectionFlags where
  signed : Bool
  inverse : Bool
  indirect : Bool
deriving DecidableEq, Repr

/-- `IndirectionOperation` from src/magic.rs. -/
structure IndirectionOperation where
  op : IndirectionOperator
  flags : IndirectionFlags
deriving DecidableEq, Repr

/-- `impl TryFrom<u8> for IndirectionOperation`.  The source matches on
`value & 0x07`, whose eight cases are all covered; its unreachable
`panic!` arm is folded into the final match arm here. -/
def IndirectionOperation.try_from (value : Nat) :
    Except MagicError IndirectionOperation :=
  if value &&& 0x18 ≠ 0 then
    .error .InvalidIndirectionOperationBitSet
  else
    let op : IndirectionOperator :=
      match value &&& 0x07 with
      | 0 => .And
      | 1 => .Or
      | 2 => .Xor
      | 3 => .Add
      | 4 => .Subtract
      | 5 => .Multiply
      | 6 => .Divide
      | _ => .Modulo
    let signed := value &&& 0x20 = 0x20
    let inverse := value &&& 0x40 = 0x40
    let indirect := value &&& 0x80 = 0x80
    .ok ⟨op, ⟨signed, inverse, indirect⟩⟩

/-- `ConditionalType` from src/magic.rs. -/
inductive ConditionalType where
  | None | If | Elif | Else
deriving DecidableEq, Repr

/-- `impl TryFrom<u8> for ConditionalType`. -/
def ConditionalType.try_from (value : Nat) : Except MagicError ConditionalType :=
  match value with
  | 0 => .ok .None
  | 1 => .ok .If
  | 2 => .ok .Elif
  | 3 => .ok .Else
  | other => .error (.InvalidConditionalType other)

/-! UTF-8 validity, modelling `std::str::from_utf8`'s acceptance set:
1–4 byte sequences, continuation bytes in `0x80..=0xBF`, no overlongs,
no surrogates, maximum `U+10FFFF`. -/

/-- `inRange lo hi b` is `lo ≤ b && b ≤ hi` as a boolean. -/
def inRange (lo hi b : Nat) : Bool := decide (lo ≤ b) && decide (b ≤ hi)

def utf8Cont (b : Nat) : Bool := inRange 0x80 0xBF b

def utf8Valid : List Nat → Bool
  | [] => true
  | b :: rest =>
    if b ≤ 0x7F then utf8Valid rest
    else if b < 0xC2 then false
    else if b ≤ 0xDF then
      match rest with
      | c1 :: r => utf8Cont c1 && utf8Valid r
      | [] => false
    else if b ≤ 0xEF then
      match rest with
      | c1 :: c2 :: r =>
        (if b = 0xE0 then inRange 0xA0 0xBF c1
         else if b = 0xED then inRange 0x80 0x9F c1
         else utf8Cont c1) && utf8Cont c2 && utf8Valid r
      | _ => false
    else if b ≤ 0xF4 then
      match rest with
      | c1 :: c2 :: c3 :: r =>
        (if b = 0xF0 then inRange 0x90 0xBF c1
         else if b = 0xF4 then inRange 0x80 0x8F c1
         else utf8Cont c1) && utf8Cont c2 && utf8Cont c3 && utf8Valid r
      | _ => false
    else false

/-- `bytes_to_string` from src/magic.rs: take the prefix before the first
zero byte (the whole window when there is none) and require it to be
valid UTF-8.  The resulting Rust `String` is modelled by its UTF-8
bytes, i.e. the prefix itself. -/
def bytes_to_string (bytes : List Nat) : Except MagicError (List Nat) :=
  let first_null := bytes.findIdx (fun b => b == 0)
  let prefix0 := bytes.take first_null
  if utf8Valid prefix0 then .ok prefix0 else .error .InvalidUtf8

/-- `Magic` from src/magic.rs: one decoded 432-byte record.  The four
text fields are Rust `String`s, modelled by their UTF-8 bytes. -/
structure Magic where
  cont_level : Nat
  flags : MagicFlags
  factor : Nat
  relation : Relation
  value_len : Nat
  value_type : ValueType
  indirection_type : ValueType
  indirection_operation : IndirectionOperation
  mask_operation : IndirectionOperation
  conditional_type : ConditionalType
  factor_operation : FactorOperation
  offset : Int
  indirection_offset : Int
  line_number : Nat
  value_options : ValueOption
  value : Value
  desc : List Nat
  mimetype : List Nat
  apple : List Nat
  ext : List Nat
deriving DecidableEq, Repr

/-- `MAGIC_SIZE` from src/loader.rs. -/
def MAGIC_SIZE : Nat := 432

/-- `Magic::from_bytes` from src/magic.rs. -/
def Magic.from_bytes (bytes : List Nat) : Res MagicError Magic := do
  if bytes.length ≠ MAGIC_SIZE then
    Res.err (.InvalidBufferLength bytes.length MAGIC_SIZE)
  else
    let cont_level := u16_read_le bytes
    let flags : MagicFlags := ⟨bytes.getD 2 0⟩
    let factor := bytes.getD 3 0
    let relation ← Res.ofExcept (Relation.try_from (bytes.getD 4 0))
    let value_len := bytes.getD 5 0
    let value_type ←
      Res.mapErr MagicError.Value (Res.ofExcept (ValueType.try_from (bytes.getD 6 0)))
    let indirection_type ←
      Res.mapErr MagicError.Value (Res.ofExcept (ValueType.try_from (bytes.getD 7 0)))
    let indirection_operation ←
      Res.ofExcept (IndirectionOperation.try_from (bytes.getD 8 0))
    let mask_operation ←
      Res.ofExcept (IndirectionOperation.try_from (bytes.getD 9 0))
    let conditional_type ←
      Res.ofExcept (ConditionalType.try_from (bytes.getD 10 0))
    let factor_operation ←
      Res.ofExcept (FactorOperation.try_from (bytes.getD 11 0))
    let offset := i32_read_le (bytes.drop 12)
    let indirection_offset := i32_read_le (bytes.drop 16)
    let line_number := u32_read_le (bytes.drop 20)
    let value_options :=
      if value_len > 0 then
        ValueOption.String (u32_read_le (bytes.drop 24)) (u32_read_le (bytes.drop 28))
      else
        ValueOption.Numeric (u64_read_le (bytes.drop 24))
    let value ←
      Res.mapErr MagicError.Value
        (Value.new value_type value_len ((bytes.drop 32).take 128))
    let desc ← Res.ofExcept (bytes_to_string ((bytes.drop 160).take 64))
    let mimetype ← Res.ofExcept (bytes_to_string ((bytes.drop 224).take 80))
    let apple ← Res.ofExcept (bytes_to_string ((bytes.drop 304).take 8))
    let ext ← Res.ofExcept (bytes_to_string ((bytes.drop 312).take 120))
    Res.ok
      { cont_level, flags, factor, relation, value_len, value_type,
        indirection_type, indirection_operation, mask_operation,
        conditional_type, factor_operation, offset, indirection_offset,
        line_number, value_options, value, desc, mimetype, apple, ext }

/-! ## src/structs.rs and src/loader.rs -/

/-- `MagicMap` from src/structs.rs. -/
structure MagicMap where
  left : List Magic
  right : List Magic
deriving DecidableEq, Repr

/-- `MAGIC_CONSTANT` from src/loader.rs. -/
def MAGIC_CONSTANT : Nat := 0xF11E041C

/-- `MAGIC_DATABASE_VERSION` from src/loader.rs. -/
def MAGIC_DATABASE_VERSION : Nat := 19

/-- `MAGIC_SETS` from src/loader.rs. -/
def MAGIC_SETS : Nat := 2

/-- `LoaderError` from src/loader.rs.  The `Io` variant belongs to the
file-reading wrapper `load_db`, not to `load_db_impl`, and is not
modelled. -/
inductive LoaderError where
  | InvalidBufferLength (got : Nat) (magicSize : Nat)
  | InvalidDatabaseRecordCount (found : Nat) (expected : Nat)
  | InvalidDatabaseVersion (got : Nat) (expected : Nat)
  | InvalidEndianness
  | InvalidMagicConstant (got : Nat) (expected : Nat)
  | InvalidRecordCount (got : Nat)
  | Magic (e : MagicError)
deriving DecidableEq, Repr

/-- `bytes.chunks_exact(n)`: the list of consecutive full chunks of size
`n` (any shorter remainder is dropped).  Defined with an explicit fuel
argument so the kernel can evaluate it. -/
def chunksExactAux (n : Nat) : Nat → List Nat → List (List Nat)
  | 0, _ => []
  | fuel + 1, l =>
    if n ≠ 0 ∧ n ≤ l.length then l.take n :: chunksExactAux n fuel (l.drop n)
    else []

def chunksExact (n : Nat) (l : List Nat) : List (List Nat) :=
  chunksExactAux n l.length l

/-- `iter.map(Magic::from_bytes).collect::<Result<Vec<_>, _>>()`:
decode every chunk, stopping at the first error or panic. -/
def decodeRecords : List (List Nat) → Res MagicError (List Magic)
  | [] => .ok []
  | c :: cs =>
    match Magic.from_bytes c with
    | .ok m =>
      match decodeRecords cs with
      | .ok ms => .ok (m :: ms)
      | .err e => .err e
      | .panic => .panic
    | .err e => .err e
    | .panic => .panic

/-- `load_db_impl` from src/loader.rs.  `u32` sums use wrapping
(release-build) semantics, written `% 2 ^ 32`; in a debug build the same
inputs that wrap here would already panic at the addition.
`records.split_off(i)` panics when `i` exceeds the vector length, which
is modelled by the final bounds check.  The `println!` is a side effect
with no bearing on the result and is not modelled. -/
def load_db_impl (bytes : List Nat) : Res LoaderError MagicMap :=
  let num_records := bytes.length / MAGIC_SIZE
  if num_records * MAGIC_SIZE ≠ bytes.length then
    .err (.InvalidBufferLength bytes.length MAGIC_SIZE)
  else if num_records < MAGIC_SETS + 1 then
    .err (.InvalidRecordCount num_records)
  else
    let magic := u32_read_le bytes
    if magic ≠ MAGIC_CONSTANT then
      if u32_from_be magic = MAGIC_CONSTANT then
        .err .InvalidEndianness
      else
        .err (.InvalidMagicConstant magic MAGIC_CONSTANT)
    else
      let version := u32_read_le (bytes.drop 4)
      if version ≠ MAGIC_DATABASE_VERSION then
        .err (.InvalidDatabaseVersion version MAGIC_DATABASE_VERSION)
      else
        let left_num_records := u32_read_le (bytes.drop 8)
        let right_num_records := u32_read_le (bytes.drop 12)
        if (1 + left_num_records + right_num_records) % 2 ^ 32 ≠ num_records then
          .err (.InvalidDatabaseRecordCount
            ((left_num_records + right_num_records) % 2 ^ 32) num_records)
        else
          let record_bytes := bytes.drop MAGIC_SIZE
          match decodeRecords (chunksExact MAGIC_SIZE record_bytes) with
          | .err e => .err (.Magic e)
          | .panic => .panic
          | .ok records =>
            if left_num_records ≤ records.length then
              .ok ⟨records.take left_num_records, records.drop left_num_records⟩
            else
              .panic

/-! ## Concrete inputs used by the theorems below -/

/-- The table of the eight indirection operators indexed by the low
three bits of the operation byte (spec wording of §4.2). -/
def indirectionOperatorTable : List IndirectionOperator :=
  [.And, .Or, .Xor, .Add, .Subtract, .Multiply, .Divide, .Modulo]

/-- The spec's minimal valid record: relation `'x'` (byte 120),
declared value length 1, value type `Byte` (1), and every other byte
zero (factor-operation NUL, conditional type 0, indirection/mask
bytes 0, all-zero value window and text windows). -/
def minRecord : List Nat :=
  [0, 0, 0, 0, 120, 1, 1, 0, 0, 0, 0, 0] ++ List.replicate 420 0

/-- A second decodable record, identical to `minRecord` except for its
factor byte (7). -/
def minRecord2 : List Nat :=
  [0, 0, 0, 7, 120, 1, 1, 0, 0, 0, 0, 0] ++ List.replicate 420 0

/-- The header record of the spec's end-to-end example:
magic `0xF11E041C` little-endian, version 19, `left_count = 1`,
`right_count = 0`. -/
def exampleHeader : List Nat :=
  [0x1C, 0x04, 0x1E, 0xF1, 19, 0, 0, 0, 1, 0, 0, 0] ++ List.replicate 420 0

/-- The 1296-byte buffer of the spec's end-to-end example: header record
with counts (1, 0), then two decodable records. -/
def exampleBuffer : List Nat := exampleHeader ++ minRecord ++ minRecord2

/-- The same header with `right_count = 1` instead of 0, so that
`1 + left_count + right_count` equals the total record count 3. -/
def fixedHeader : List Nat :=
  [0x1C, 0x04, 0x1E, 0xF1, 19, 0, 0, 0, 1, 0, 0, 0, 1, 0, 0, 0] ++
    List.replicate 416 0

/-- The end-to-end example buffer with the record-count cross-check
satisfied: counts (1, 1) over two non-header records. -/
def fixedBuffer : List Nat := fixedHeader ++ minRecord ++ minRecord2

/-- The decoded form of `minRecord`, written out field by field. -/
def exampleRecord1 : Magic :=
  { cont_level := 0, flags := ⟨0⟩, factor := 0, relation := .Anything,
    value_len := 1, value_type := .Byte, indirection_type := .Invalid,
    indirection_operation := ⟨.And, ⟨false, false, false⟩⟩,
    mask_operation := ⟨.And, ⟨false, false, false⟩⟩,
    conditional_type := .None, factor_operation := .None,
    offset := 0, indirection_offset := 0, line_number := 0,
    value_options := .String 0 0, value := ⟨.Byte, [0]⟩,
    desc := [], mimetype := [], apple := [], ext := [] }

/-- The decoded form of `minRecord2`. -/
def exampleRecord2 : Magic := { exampleRecord1 with factor := 7 }

/-- A 1296-byte buffer whose header declares `left_count = 0xFFFFFFFF`
and `right_count = 3`: the wrapped 32-bit sum `1 + left + right` equals
the total record count 3, so every header check passes. -/
def overflowHeader : List Nat :=
  [0x1C, 0x04, 0x1E, 0xF1, 19, 0, 0, 0, 255, 255, 255, 255, 3, 0, 0, 0] ++
    List.replicate 416 0

def overflowBuffer : List Nat := overflowHeader ++ minRecord ++ minRecord2

/-- A 1728-byte (4-record) buffer whose header declares counts (1, 1):
`1 + 1 + 1 = 3` differs from the 4 records implied by the length. -/
def mismatchHeader : List Nat :=
  [0x1C, 0x04, 0x1E, 0xF1, 19, 0, 0, 0, 1, 0, 0, 0, 1, 0, 0, 0] ++
    List.replicate 416 0

def mismatchBuffer : List Nat := mismatchHeader ++ List.replicate (3 * 432) 0

/-- A 1296-byte buffer whose first four bytes are the byte-reversed
magic constant. -/
def endianBuffer : List Nat :=
  [0xF1, 0x1E, 0x04, 0x1C] ++ List.replicate 1292 0

/-- A 1296-byte buffer whose first four bytes are arbitrary garbage
(little-endian value `0x04030201`), matching the magic constant in
neither byte order. -/
def garbageBuffer : List Nat :=
  [1, 2, 3, 4] ++ List.replicate 1292 0

/-! ## Helper lemmas -/

theorem trimLoop_le (bytes : List Nat) : ∀ n, trimLoop bytes n ≤ n := by
  intro n
  induction n using Nat.strong_induction_on with
  | _ n ih =>
    match n with
    | 0 => simp [trimLoop]
    | 1 => simp [trimLoop]
    | n + 2 =>
      rw [trimLoop]
      split
      · exact le_refl _
      · exact le_trans (ih (n + 1) (by omega)) (by omega)

theorem trimLoop_pos (bytes : List Nat) : ∀ n, 1 ≤ n → 1 ≤ trimLoop bytes n := by
  intro n
  induction n using Nat.strong_induction_on with
  | _ n ih =>
    match n with
    | 0 => omega
    | 1 => simp [trimLoop]
    | n + 2 =>
      intro _
      rw [trimLoop]
      split
      · omega
      · exact ih (n + 1) (by omega) (by omega)

theorem take_findIdx_eq_takeWhile (l : List Nat) :
    l.take (l.findIdx (fun b => b == 0)) = l.takeWhile (fun b => b != 0) := by
  induction l with
  | nil => rfl
  | cons a l ih =>
    by_cases ha : a = 0
    · subst ha
      simp [List.findIdx_cons, List.takeWhile_cons]
    · have hb : (a == 0) = false := by simpa using ha
      simp [List.findIdx_cons, List.takeWhile_cons, hb, ih, ha]

/-! ## Claim theorems -/

set_option maxRecDepth 100000 in
/-- C1 (counterexample): the spec's end-to-end buffer — 1296 bytes, header
counts `(left, right) = (1, 0)`, followed by two decodable records — is
not decoded at all: `load_db_impl` rejects it with the
record-count-mismatch error carrying `left + right = 1` and the observed
total 3, because the cross-check demands `1 + left + right = 3`. -/
theorem C1_described_buffer_rejected :
    load_db_impl exampleBuffer =
      Res.err (LoaderError.InvalidDatabaseRecordCount 1 3) := by
  decide

set_option maxRecDepth 100000 in
/-- C1 (amended): with the header amended to `right_count = 1` so the
cross-check `1 + left + right = 3` holds, the 1296-byte buffer decodes to
a database whose left subset is exactly one record equal field-by-field
to the decoding of record 1 (`exampleRecord1`) and whose right subset is
exactly record 2; record 2 is decode-checked and lands in the right
subset rather than being dropped. -/
theorem C1_end_to_end_amended :
    load_db_impl fixedBuffer = Res.ok ⟨[exampleRecord1], [exampleRecord2]⟩ ∧
    Magic.from_bytes minRecord = Res.ok exampleRecord1 := by
  constructor
  · decide
  · decide

set_option maxRecDepth 10000 in
/-- C2 (counterexample): `Value::new` does not succeed for every declared
length byte: with declared length 129 and a 128-byte window its
`assert!((len as usize) <= bytes.len())` fails, a panic that is reachable
from a record whose length byte exceeds 128. -/
theorem C2_overlong_declared_length_panics :
    Value.new ValueType.Byte 129 (List.replicate 128 0) = Res.panic := by
  decide

/-- C2 (amended): for every value type, every declared length byte up to
the 128-byte window size, and every 128-byte window, `Value::new`
succeeds (no error, no assertion failure), and when the declared length
is nonzero the payload is exactly the first `len` bytes of the window.
Declared lengths 129–255 instead violate the length assertion. -/
theorem C2_value_new_ok_within_window (vt : ValueType) (len : Nat)
    (bytes : List Nat) (hlen : bytes.length = 128) (hle : len ≤ 128) :
    ∃ v, Value.new vt len bytes = Res.ok v ∧
      (len ≠ 0 → v.bytes = bytes.take len) := by
  by_cases h0 : len = 0
  · subst h0
    have hpos : 1 ≤ trimLoop bytes 127 := trimLoop_pos bytes 127 (by omega)
    refine ⟨⟨vt, bytes.take (trimLoop bytes 127)⟩, ?_, by simp⟩
    simp only [Value.new, hlen]
    rw [if_pos (by omega)]
    norm_num
    intro h
    omega
  · refine ⟨⟨vt, bytes.take len⟩, ?_, fun _ => rfl⟩
    simp only [Value.new, hlen]
    rw [if_pos hle, if_pos h0, if_pos (by omega)]

/-- C2 (witness): the amended theorem applied at value type `Byte`,
declared length 5, and the all-threes window. -/
theorem C2_value_new_ok_within_window_witness :
    ∃ v, Value.new ValueType.Byte 5 (List.replicate 128 3) = Res.ok v ∧
      ((5 : Nat) ≠ 0 → v.bytes = (List.replicate 128 3).take 5) :=
  C2_value_new_ok_within_window ValueType.Byte 5 (List.replicate 128 3)
    (by simp) (by omega)

set_option maxRecDepth 100000 in
/-- C3 (counterexample): on a 4-record buffer declaring counts (1, 1)
the loader fails with the record-count-mismatch error whose first
carried value is `left + right = 2`, not the computed sum
`1 + left + right = 3` the claim states. -/
theorem C3_error_payload_counterexample :
    load_db_impl mismatchBuffer =
      Res.err (LoaderError.InvalidDatabaseRecordCount 2 4) ∧
    u32_read_le (mismatchBuffer.drop 8) = 1 ∧
    u32_read_le (mismatchBuffer.drop 12) = 1 ∧
    (2 : Nat) ≠ 1 + 1 + 1 := by
  refine ⟨by decide, by decide, by decide, by decide⟩

/-- C3 (amended): for every buffer passing the length, minimum-size,
magic, and version checks, the loader proceeds past the record-count
cross-check iff the wrapping 32-bit sum `(1 + left + right) mod 2^32`
equals the total record count (never producing the record-count-mismatch
error in that case), and on any other total fails with the
record-count-mismatch error whose first carried value is
`(left + right) mod 2^32` — without the `+1` — and whose second carried
value is the observed total record count. -/
theorem C3_record_count_check (bytes : List Nat)
    (h1 : bytes.length / MAGIC_SIZE * MAGIC_SIZE = bytes.length)
    (h2 : 3 ≤ bytes.length / MAGIC_SIZE)
    (h3 : u32_read_le bytes = MAGIC_CONSTANT)
    (h4 : u32_read_le (bytes.drop 4) = MAGIC_DATABASE_VERSION) :
    ((1 + u32_read_le (bytes.drop 8) + u32_read_le (bytes.drop 12)) % 2 ^ 32 =
        bytes.length / MAGIC_SIZE →
      ∀ s t, load_db_impl bytes ≠
        Res.err (LoaderError.InvalidDatabaseRecordCount s t)) ∧
    ((1 + u32_read_le (bytes.drop 8) + u32_read_le (bytes.drop 12)) % 2 ^ 32 ≠
        bytes.length / MAGIC_SIZE →
      load_db_impl bytes =
        Res.err (LoaderError.InvalidDatabaseRecordCount
          ((u32_read_le (bytes.drop 8) + u32_read_le (bytes.drop 12)) % 2 ^ 32)
          (bytes.length / MAGIC_SIZE))) := by
  constructor
  · intro hsum s t
    simp only [load_db_impl, MAGIC_SETS]
    rw [if_neg (not_not_intro h1), if_neg (by omega), if_neg (not_not_intro h3),
      if_neg (not_not_intro h4), if_neg (not_not_intro hsum)]
    cases decodeRecords (chunksExact MAGIC_SIZE (bytes.drop MAGIC_SIZE)) with
    | ok records =>
      split
      · simp
      · simp
      · split <;> simp
    | err e => simp
    | panic => simp
  · intro hsum
    simp only [load_db_impl, MAGIC_SETS]
    rw [if_neg (not_not_intro h1), if_neg (by omega), if_neg (not_not_intro h3),
      if_neg (not_not_intro h4), if_pos hsum]

set_option maxRecDepth 100000 in
/-- C3 (witness): the amended theorem applied at the concrete 4-record
buffer with counts (1, 1): the error carries 2 and 4. -/
theorem C3_record_count_check_witness :
    load_db_impl mismatchBuffer =
      Res.err (LoaderError.InvalidDatabaseRecordCount 2 4) := by
  have h := (C3_record_count_check mismatchBuffer (by decide) (by decide)
    (by decide) (by decide)).2 (by decide)
  exact h.trans (by decide)

set_option maxRecDepth 100000 in
/-- C4: a buffer accepted by header validation on which the claimed
safety properties all fail: the header declares
`left_count = 4294967295` and `right_count = 3` over a 3-record buffer,
the 32-bit sum `1 + left_count + right_count` overflows (the true sum
differs from the total record count even though the wrapped cross-check
passes), `left_count` exceeds the 2 decoded non-header records, and the
final split (`Vec::split_off(left_count)`) is out of bounds, so
`load_db_impl` panics instead of returning a result. -/
theorem C4_overflow_split_panics :
    load_db_impl overflowBuffer = Res.panic ∧
    1 + u32_read_le (overflowBuffer.drop 8) + u32_read_le (overflowBuffer.drop 12) ≠
      overflowBuffer.length / MAGIC_SIZE := by
  refine ⟨by decide, by decide⟩

/-- C5: the first two header checks, in their authoritative order: every
buffer whose length is not a multiple of 432 is rejected with the
length-mismatch error regardless of content, and every buffer whose
length is a multiple of 432 but holds fewer than 3 records is rejected
with the record-count-too-small error carrying the record count. -/
theorem C5_length_and_min_checks (bytes : List Nat) :
    (¬ MAGIC_SIZE ∣ bytes.length →
      load_db_impl bytes =
        Res.err (LoaderError.InvalidBufferLength bytes.length MAGIC_SIZE)) ∧
    (MAGIC_SIZE ∣ bytes.length → bytes.length / MAGIC_SIZE < 3 →
      load_db_impl bytes =
        Res.err (LoaderError.InvalidRecordCount (bytes.length / MAGIC_SIZE))) := by
  constructor
  · intro hnd
    have hne : bytes.length / MAGIC_SIZE * MAGIC_SIZE ≠ bytes.length := by
      intro he
      exact hnd ⟨bytes.length / MAGIC_SIZE, by rw [Nat.mul_comm]; exact he.symm⟩
    simp only [load_db_impl]
    rw [if_pos hne]
  · intro hd hlt
    have he : bytes.length / MAGIC_SIZE * MAGIC_SIZE = bytes.length :=
      Nat.div_mul_cancel hd
    simp only [load_db_impl, MAGIC_SETS]
    rw [if_neg (not_not_intro he), if_pos (by omega)]

set_option maxRecDepth 100000 in
/-- C5 (witness): a 1-byte buffer is rejected for its length, and an
864-byte all-zero buffer (2 records) is rejected for holding fewer than
3 records. -/
theorem C5_length_and_min_checks_witness :
    load_db_impl [0] = Res.err (LoaderError.InvalidBufferLength 1 432) ∧
    load_db_impl (List.replicate 864 0) =
      Res.err (LoaderError.InvalidRecordCount 2) := by
  constructor
  · exact ((C5_length_and_min_checks [0]).1 (by decide)).trans (by decide)
  · exact ((C5_length_and_min_checks (List.replicate 864 0)).2 (by decide)
      (by decide)).trans (by decide)

/-- C6: for every buffer passing the length and minimum-size checks whose
first four bytes, as a 32-bit little-endian integer, differ from the
magic constant `0xF11E041C`: if the byte-swapped (big-endian)
interpretation equals the constant the loader fails with the distinct
wrong-endianness error, and otherwise with the generic
wrong-magic-constant error carrying the observed and expected values. -/
theorem C6_magic_marker_check (bytes : List Nat)
    (h1 : bytes.length / MAGIC_SIZE * MAGIC_SIZE = bytes.length)
    (h2 : 3 ≤ bytes.length / MAGIC_SIZE)
    (hm : u32_read_le bytes ≠ MAGIC_CONSTANT) :
    load_db_impl bytes =
      Res.err
        (if u32_from_be (u32_read_le bytes) = MAGIC_CONSTANT then
          LoaderError.InvalidEndianness
        else
          LoaderError.InvalidMagicConstant (u32_read_le bytes) MAGIC_CONSTANT) := by
  simp only [load_db_impl, MAGIC_SETS]
  rw [if_neg (not_not_intro h1), if_neg (by omega), if_pos hm]
  split
  · rfl
  · rfl

set_option maxRecDepth 100000 in
/-- C6 (witness): a buffer starting with the byte-reversed magic constant
gets the wrong-endianness error; a buffer starting with garbage bytes
`01 02 03 04` gets the generic wrong-magic-constant error carrying the
observed little-endian value `0x04030201` and the expected constant. -/
theorem C6_magic_marker_check_witness :
    load_db_impl endianBuffer = Res.err LoaderError.InvalidEndianness ∧
    load_db_impl garbageBuffer =
      Res.err (LoaderError.InvalidMagicConstant 0x04030201 MAGIC_CONSTANT) := by
  constructor
  · exact (C6_magic_marker_check endianBuffer (by decide) (by decide)
      (by decide)).trans (by decide)
  · exact (C6_magic_marker_check garbageBuffer (by decide) (by decide)
      (by decide)).trans (by decide)

set_option maxRecDepth 4000 in
/-- C7: the value-type decoder is a bijection between the integers 0–59
and the 60 enumeration variants: decoding the discriminant of any
variant returns that variant, every integer below 60 decodes and
re-exposes the same integer, every variant's discriminant is below 60,
and every byte value from 60 to 255 fails with the invalid-value-type
error carrying that raw byte. -/
theorem C7_value_type_enum_bijection :
    (∀ t : ValueType, ValueType.try_from t.toNat = Except.ok t) ∧
    (∀ v : Fin 60,
      (ValueType.try_from v.val).map ValueType.toNat = Except.ok v.val) ∧
    (∀ t : ValueType, t.toNat < 60) ∧
    (∀ v : Fin 196,
      ValueType.try_from (60 + v.val) =
        Except.error (ValueError.InvalidValueType (60 + v.val))) := by
  refine ⟨fun t => by cases t <;> rfl, by decide,
    fun t => by cases t <;> decide, by decide⟩

set_option maxRecDepth 4000 in
/-- C8: for every indirection-operation or mask-operation byte, if bit
0x08 (bit 3) or bit 0x10 (bit 4) is set the decode fails with the
reserved-bits-set error regardless of the other bits; otherwise it
succeeds, the low three bits select the operator in the order AND, OR,
XOR, add, subtract, multiply, divide, modulo, bit 5 (0x20) gives the
signed flag, bit 6 (0x40) the inverse flag, and bit 7 (0x80) the
indirect flag. -/
theorem C8_indirection_operation_decode :
    ∀ v : Fin 256,
      if v.val.testBit 3 ∨ v.val.testBit 4 then
        IndirectionOperation.try_from v.val =
          Except.error MagicError.InvalidIndirectionOperationBitSet
      else
        IndirectionOperation.try_from v.val =
          Except.ok
            ⟨indirectionOperatorTable.getD (v.val % 8) .And,
             ⟨v.val.testBit 5, v.val.testBit 6, v.val.testBit 7⟩⟩ := by
  decide

set_option maxRecDepth 10000 in
/-- C9: for every 128-byte value window with declared length zero,
`Value::new` succeeds and its payload is the prefix of the window of
length `trimLoop window 127` — the trailing-zero-trimming loop started
at `window_size - 1` — which is at least 1 and at most 127; moreover the
window `"hi"` (bytes 104 105) followed by zeros yields exactly the
2-byte payload, and the all-zero window yields the single zero byte,
never an empty payload. -/
theorem C9_inferred_length :
    (∀ (vt : ValueType) (bytes : List Nat), bytes.length = 128 →
      ∃ v, Value.new vt 0 bytes = Res.ok v ∧
        v.bytes = bytes.take (trimLoop bytes 127) ∧
        1 ≤ trimLoop bytes 127 ∧ trimLoop bytes 127 ≤ 127 ∧
        1 ≤ v.bytes.length) ∧
    Value.new ValueType.String 0 ([104, 105] ++ List.replicate 126 0) =
      Res.ok ⟨ValueType.String, [104, 105]⟩ ∧
    Value.new ValueType.String 0 (List.replicate 128 0) =
      Res.ok ⟨ValueType.String, [0]⟩ := by
  refine ⟨?_, by decide, by decide⟩
  intro vt bytes hlen
  have hpos : 1 ≤ trimLoop bytes 127 := trimLoop_pos bytes 127 (by omega)
  have hle : trimLoop bytes 127 ≤ 127 := trimLoop_le bytes 127
  refine ⟨⟨vt, bytes.take (trimLoop bytes 127)⟩, ?_, rfl, hpos, hle, ?_⟩
  · simp only [Value.new, hlen]
    rw [if_pos (by omega)]
    norm_num
    intro h
    omega
  · simp only [List.length_take, hlen]
    omega

set_option maxRecDepth 10000 in
/-- C9 (witness): the universal part of C9 applied at the `"hi"` window. -/
theorem C9_inferred_length_witness :
    ∃ v, Value.new ValueType.Byte 0 ([104, 105] ++ List.replicate 126 0) =
        Res.ok v ∧
      v.bytes = ([104, 105] ++ List.replicate 126 0).take
        (trimLoop ([104, 105] ++ List.replicate 126 0) 127) ∧
      1 ≤ trimLoop ([104, 105] ++ List.replicate 126 0) 127 ∧
      trimLoop ([104, 105] ++ List.replicate 126 0) 127 ≤ 127 ∧
      1 ≤ v.bytes.length :=
  C9_inferred_length.1 ValueType.Byte ([104, 105] ++ List.replicate 126 0)
    (by simp)

set_option maxRecDepth 10000 in
/-- C10: `bytes_to_string` takes the prefix of its window up to the first
zero byte — the whole window when no zero byte exists — and returns it
as text exactly when that prefix is valid UTF-8, failing with the
invalid-encoding error otherwise; in particular `"abc"` followed by
zeros in a 64-byte window decodes to exactly `"abc"`, a window with no
zero byte decodes to the entire window, and a window starting with the
invalid byte 0xFF fails. -/
theorem C10_text_decoder :
    (∀ bytes : List Nat,
      bytes_to_string bytes =
        if utf8Valid (bytes.takeWhile (fun b => b != 0)) then
          Except.ok (bytes.takeWhile (fun b => b != 0))
        else
          Except.error MagicError.InvalidUtf8) ∧
    bytes_to_string ([97, 98, 99] ++ List.replicate 61 0) =
      Except.ok [97, 98, 99] ∧
    bytes_to_string (List.replicate 8 97) = Except.ok (List.replicate 8 97) ∧
    bytes_to_string (255 :: List.replicate 63 0) =
      Except.error MagicError.InvalidUtf8 := by
  refine ⟨?_, by decide, by decide, by decide⟩
  intro bytes
  simp only [bytes_to_string, take_findIdx_eq_takeWhile]
